import Mathlib

/-!
Verification of `mohfw_bfs_crawler.py` (class `MoHFWCrawler`): a shallow
embedding of the crawler's frontier management, fetch retry loop, response
classification, and PDF archiving, together with theorems about the
properties the crawler is specified to have.

Strings are modelled as Lean `String`s; the Python library string
operations (`str.lower`, `str.endswith`, substring membership `in`,
`urllib.parse` component access) are modelled by explicit functions over
`String.data` so that they can be both executed and reasoned about.
-/

namespace MoHFW

/-- Model of Python `str.lower` on a single character: ASCII uppercase
letters map to lowercase, everything else is unchanged (the crawler only
handles ASCII URLs and header values). -/
def char_lower (c : Char) : Char :=
  if c.isUpper then Char.ofNat (c.toNat + 32) else c

/-- Model of Python `str.lower`. -/
def str_lower (s : String) : String :=
  String.mk (s.data.map char_lower)

/-- Model of Python `str.endswith`. -/
def str_ends_with (s t : String) : Bool :=
  decide (t.data <:+ s.data)

/-- Model of Python `str.startswith`. -/
def str_starts_with (s t : String) : Bool :=
  decide (t.data <+: s.data)

/-- Model of Python substring membership `sub in s`. -/
def contains_substr (s sub : String) : Bool :=
  decide (sub.data <:+: s.data)

/-- Split a character list at the first occurrence of `"://"`:
`some (scheme, rest)` when present, `none` otherwise. -/
def split_scheme : List Char → Option (List Char × List Char)
  | [] => none
  | ':' :: '/' :: '/' :: rest => some ([], rest)
  | c :: cs =>
    match split_scheme cs with
    | none => none
    | some (pre, post) => some (c :: pre, post)

/-- Model of `urllib.parse.urlparse(url).netloc` for URLs of the shape
`scheme://netloc/path?query#fragment`: the text after `"://"` up to the
first `/`, `?` or `#`; empty when the URL has no scheme separator. -/
def netloc (url : String) : String :=
  match split_scheme url.data with
  | some (_, rest) =>
    String.mk (rest.takeWhile (fun c => !(c == '/' || c == '?' || c == '#')))
  | none => ""

/-- Model of `urllib.parse.urlparse(url).path` for the same URL shape:
the text from the first `/` after the authority up to the first `?` or
`#`; for scheme-less inputs the whole string up to `?`/`#` is the path. -/
def url_path (url : String) : String :=
  match split_scheme url.data with
  | some (_, rest) =>
    String.mk ((rest.dropWhile
      (fun c => !(c == '/' || c == '?' || c == '#'))).takeWhile
      (fun c => !(c == '?' || c == '#')))
  | none => String.mk (url.data.takeWhile (fun c => !(c == '?' || c == '#')))

/-- Model of `urllib.parse.urlparse(url)._replace(fragment="").geturl()`
(line 167 of the source): everything before the first `#`. -/
def strip_fragment (url : String) : String :=
  String.mk (url.data.takeWhile (fun c => !(c == '#')))

/-- The scheme of a URL (text before the first `"://"`), used by the
`urljoin` model. -/
def url_scheme (url : String) : String :=
  match split_scheme url.data with
  | some (pre, _) => String.mk pre
  | none => ""

/-- `scheme://netloc` of a URL, used by the `urljoin` model. -/
def scheme_host (url : String) : String :=
  url_scheme url ++ "://" ++ netloc url

/-- The directory part of a path: everything up to and including the last
`/` (empty when the path has no `/`). -/
def dir_part (p : String) : String :=
  String.mk ((p.data.reverse.dropWhile (fun c => !(c == '/'))).reverse)

/-- Model of `urllib.parse.urljoin(base, href)` (line 164 of the source)
for the reference forms the crawler meets: absolute references are taken
as-is; protocol-relative (`//…`) references inherit the base's scheme;
root-relative (`/…`) references replace the base's path; fragment-only
references resolve to the base without its fragment; other relative
references resolve against the base's directory.  Dot-segment
normalisation of relative references is omitted (no claim depends on
it). -/
def urljoin (base href : String) : String :=
  if contains_substr href "://" then href
  else if str_starts_with href "//" then url_scheme base ++ ":" ++ href
  else if str_starts_with href "/" then scheme_host base ++ href
  else if href = "" then strip_fragment base
  else if str_starts_with href "#" then strip_fragment base ++ href
  else scheme_host base ++ dir_part (url_path base) ++ href

/-- `is_valid_url` (lines 40–46 of the source): the parsed netloc must end
with `"mohfw.gov.in"` and the URL must not already be in `visited`. -/
def is_valid_url (visited : List String) (url : String) : Bool :=
  str_ends_with (netloc url) "mohfw.gov.in" && !(visited.contains url)

/-- `os.path.basename` as used on a URL path (line 70 of the source): the
text after the last `/`. -/
def basename (p : String) : String :=
  String.mk ((p.data.reverse.takeWhile (fun c => !(c == '/'))).reverse)

/-- The character filter of line 78 of the source: keep a character iff it
is alphanumeric or one of space, dot, underscore, hyphen. -/
def allowed_char (c : Char) : Bool :=
  c.isAlphanum || c == ' ' || c == '.' || c == '_' || c == '-'

/-- The filename cleaning of line 78 of the source. -/
def clean_filename (s : String) : String :=
  String.mk (s.data.filter allowed_char)

/-- `pdf_min_size` (line 27 of the source): 50 KiB. -/
def pdf_min_size : Nat := 50 * 1024

/-- Steps 1–2 of the filename derivation of `save_pdf` (lines 70–73 of
the source): basename of the URL path, or a timestamp-based synthetic
name when that is empty or ends in `/`. `now` stands for
`int(time.time())`. -/
def raw_filename (url : String) (now : Nat) : String :=
  if basename (url_path url) = "" || str_ends_with (basename (url_path url)) "/" then
    s!"document_{now}.pdf"
  else basename (url_path url)

/-- Step 3 of the filename derivation (lines 74–75 of the source): a
`.pdf` suffix is appended when missing (case-insensitively). -/
def pdf_suffixed (s : String) : String :=
  if !(str_ends_with (str_lower s) ".pdf") then s ++ ".pdf" else s

/-- The full filename derivation of `save_pdf` (lines 70–78 of the
source): raw name, suffix fix-up, then the character filter. -/
def derive_filename (url : String) (now : Nat) : String :=
  clean_filename (pdf_suffixed (raw_filename url now))

/-- An HTTP response as the crawler observes it: the `Content-Type`
header (absent modelled as `none`; `headers.get` then yields the default
`''`), the `content-length` header as the raw header string (absent
modelled as `none`; `headers.get('content-length', 0)` then yields the
integer `0`), the `href` attributes of the anchors a BeautifulSoup parse
of the body would find, and the sizes of the chunks `iter_content`
yields. -/
structure Response where
  content_type : Option String
  content_length : Option String
  links : List String
  chunks : List Nat
deriving DecidableEq, Repr

/-- `int(s)` for a non-negative decimal string: `none` models the
`ValueError` raised on non-numeric input (`int` also tolerates
surrounding whitespace and a sign, which header values do not carry). -/
def parse_digits (l : List Char) : Option Nat :=
  if l.all Char.isDigit && !l.isEmpty then
    some (l.foldl (fun n c => 10 * n + (c.toNat - 48)) 0)
  else none

/-- `int(response.headers.get('content-length', 0))` (line 65 of the
source): `0` for an absent header, the parsed integer for a numeric
header string, and `none` (a raised `ValueError`, caught by the outer
`except`) for a non-numeric header string. -/
def parse_content_length : Option String → Option Nat
  | none => some 0
  | some s => parse_digits s.data

/-- `max_retries` of `get_response` (line 50 of the source). -/
def max_retries : Nat := 3

/-- One fetch trace: the result, the number of GET attempts performed,
and the list of backoff sleeps (in time units) performed. The `oracle`
gives the outcome of attempt `i` (`none` = transport failure: timeout,
connection reset, or the non-2xx status raised by `raise_for_status`). -/
def get_response_aux (oracle : Nat → Option Response) :
    Nat → Nat → List Nat → Option Response × Nat × List Nat
  | 0, attempts, sleeps => (none, attempts, sleeps.reverse)
  | fuel + 1, attempts, sleeps =>
    match oracle attempts with
    | some r => (some r, attempts + 1, sleeps.reverse)
    | none => get_response_aux oracle fuel (attempts + 1) (2 :: sleeps)

/-- `get_response` (lines 48–60 of the source): up to `max_retries`
attempts, a 2-time-unit sleep after each failed attempt, `None` once the
retries are exhausted. -/
def get_response (oracle : Nat → Option Response) :
    Option Response × Nat × List Nat :=
  get_response_aux oracle max_retries 0 []

/-- The sidecar metadata record of lines 91–98 of the source.
`file_size_kb` is stored as the exact rational `content_length / 1024`;
the source rounds it to two decimal places for display, a floating-point
detail no claim depends on. -/
structure Metadata where
  source_authority : String
  tier : String
  download_url : String
  file_name : String
  crawl_date : String
  file_size_kb : Rat
deriving DecidableEq, Repr

/-- The crawler's mutable state: the `visited` set and FIFO `queue`
(lines 25–26), the statistics counters (lines 33–35), plus the persisted
artifacts — `files` are the PDF files on disk as (name, bytes written)
pairs and `sidecars` the metadata records.  `ever_enqueued` is a history
variable recording every URL ever appended to the queue (the seed
included); the source keeps no such list, it only serves to state that a
URL never enters the frontier. -/
structure CrawlState where
  visited : List String
  queue : List String
  pages_visited : Nat
  pdfs_downloaded : Nat
  total_size_bytes : Nat
  files : List (String × Nat)
  sidecars : List Metadata
  ever_enqueued : List String
deriving DecidableEq, Repr

/-- A point at which an injected I/O exception interrupts `save_pdf`:
during the PDF byte write (lines 83–85), after `chunks_written` chunks
of the `iter_content` loop have reached the already opened (and hence
created/truncated) file — `chunks_written = 0` is a failure at the very
first write, a value at or beyond the chunk count a failure when the
`with` block closes the fully written file — or during the sidecar
write (lines 100–102). -/
inductive WritePoint
  | pdfWrite (chunks_written : Nat)
  | sidecarWrite
deriving DecidableEq, Repr

/-- `save_pdf` (lines 62–107 of the source) as a state transformer.
`fail_at` injects an I/O failure at the given write; the source's
`try/except` catches every exception, so the function always returns a
state.  An exception inside the chunk-write loop happens after
`open(file_path, 'wb')` has already created or truncated the file, so
it leaves a partial file on disk holding the chunks written so far,
with the counters (updated only at lines 87–88, after the full loop)
and the sidecar list untouched; an exception during the sidecar write
happens after the counters were updated and the full PDF written. -/
def save_pdf (url : String) (r : Response) (now : Nat) (today : String)
    (fail_at : Option WritePoint) (st : CrawlState) : CrawlState :=
  match parse_content_length r.content_length with
  | none => st
  | some content_length =>
    if content_length < pdf_min_size then st
    else
      let filename := derive_filename url now
      match fail_at with
      | some (WritePoint.pdfWrite k) =>
        { st with files := st.files ++ [(filename, (r.chunks.take k).sum)] }
      | some WritePoint.sidecarWrite =>
        { st with
          files := st.files ++ [(filename, r.chunks.sum)]
          pdfs_downloaded := st.pdfs_downloaded + 1
          total_size_bytes := st.total_size_bytes + content_length }
      | none =>
        { st with
          files := st.files ++ [(filename, r.chunks.sum)]
          pdfs_downloaded := st.pdfs_downloaded + 1
          total_size_bytes := st.total_size_bytes + content_length
          sidecars := st.sidecars ++
            [{ source_authority := "MoHFW"
               tier := "Tier1"
               download_url := url
               file_name := filename
               crawl_date := today
               file_size_kb := (content_length : Rat) / 1024 }] }

/-- How the crawl loop classifies a successful response (lines 146–150
of the source): PDF when the lowered `Content-Type` contains
`application/pdf` or the lowered URL ends in `.pdf`; otherwise HTML when
the lowered `Content-Type` contains `text/html`; otherwise skipped. -/
inductive Classification
  | pdf
  | html
  | other
deriving DecidableEq, Repr

/-- The classification branch of the crawl loop (lines 146–150;
`content_type` is the raw header value, `''` when the header is
absent). -/
def classify (url : String) (content_type : String) : Classification :=
  if contains_substr (str_lower content_type) "application/pdf"
      || str_ends_with (str_lower url) ".pdf" then
    Classification.pdf
  else if contains_substr (str_lower content_type) "text/html" then
    Classification.html
  else
    Classification.other

/-- The per-link body of the HTML branch (lines 162–171 of the source),
applied to an already joined and fragment-stripped URL: append it to the
queue iff `is_valid_url` accepts it and it is in neither `visited` nor
the live queue. -/
def enqueue_link (st : CrawlState) (full_url : String) : CrawlState :=
  if is_valid_url st.visited full_url then
    if !(st.visited.contains full_url) && !(st.queue.contains full_url) then
      { st with
        queue := st.queue ++ [full_url]
        ever_enqueued := st.ever_enqueued ++ [full_url] }
    else st
  else st

/-- The environment of a crawl: the retry-wrapped fetch outcome for each
URL (`none` = `get_response` returned `None`), the injected I/O failure
for each URL's archive step, the value of `int(time.time())` and the
crawl date. -/
structure World where
  fetch : String → Option Response
  fail_at : String → Option WritePoint
  now : Nat
  today : String

/-- Processing of one dequeued URL after it is marked visited
(lines 132–176 of the source): fetch, classify, then archive the PDF,
or extract the HTML page's links — joining each `href` against the page
URL and stripping the fragment before the enqueue checks — or skip the
response. -/
def process_url (w : World) (url : String) (st : CrawlState) : CrawlState :=
  match w.fetch url with
  | none => st
  | some r =>
    match classify url ((r.content_type).getD "") with
    | Classification.pdf => save_pdf url r w.now w.today (w.fail_at url) st
    | Classification.html =>
      r.links.foldl
        (fun acc href => enqueue_link acc (strip_fragment (urljoin url href))) st
    | Classification.other => st

/-- The crawl loop (lines 112–179 of the source), fuel-bounded: pop the
head of the queue; skip it if already visited; otherwise mark it
visited, count the visit, and process it. -/
def crawl_loop (w : World) : Nat → CrawlState → CrawlState
  | 0, st => st
  | fuel + 1, st =>
    match st.queue with
    | [] => st
    | url :: rest =>
      if (st.visited).contains url then
        crawl_loop w fuel { st with queue := rest }
      else
        crawl_loop w fuel
          (process_url w url
            { st with
              queue := rest
              visited := url :: st.visited
              pages_visited := st.pages_visited + 1 })

/-- `seed_url` (line 23 of the source). -/
def seed_url : String := "https://mohfw.gov.in"

/-- The crawler's initial state (lines 25–35 of the source): empty
visited set, the seed alone in the queue, all counters zero, nothing on
disk. -/
def init_state : CrawlState :=
  { visited := []
    queue := [seed_url]
    pages_visited := 0
    pdfs_downloaded := 0
    total_size_bytes := 0
    files := []
    sidecars := []
    ever_enqueued := [seed_url] }

/-- A crawl environment that never delivers a response; used to
instantiate universally quantified theorems. -/
def trivial_world : World :=
  { fetch := fun _ => none
    fail_at := fun _ => none
    now := 0
    today := "" }

/-- The responses of the spec's end-to-end scenario: the seed serves an
HTML page with one on-domain link to `/report.pdf` (served with
content-length 100000), one on-domain link to `/tiny.pdf` (served with
content-length 1000) and one off-domain link; everything else fails. -/
def scenario_response (url : String) : Option Response :=
  if url = seed_url then
    some { content_type := some "text/html"
           content_length := none
           links := ["/report.pdf", "/tiny.pdf", "https://evil.example.com/page"]
           chunks := [] }
  else if url = "https://mohfw.gov.in/report.pdf" then
    some { content_type := some "application/pdf"
           content_length := some "100000"
           links := []
           chunks := [8192, 8192, 100] }
  else if url = "https://mohfw.gov.in/tiny.pdf" then
    some { content_type := some "application/pdf"
           content_length := some "1000"
           links := []
           chunks := [1000] }
  else none

/-- The end-to-end scenario environment: no I/O failures. -/
def scenario_world : World :=
  { fetch := scenario_response
    fail_at := fun _ => none
    now := 1700000000
    today := "2026-10-12" }

/-- The state after the crawl loop of the end-to-end scenario runs to
queue exhaustion (10 units of fuel are more than the loop's 3
iterations). -/
def scenario_final : CrawlState :=
  crawl_loop scenario_world 10 init_state

/-- The frontier invariant of the spec (§3): the queue holds no
duplicates and is disjoint from the visited set. -/
def Inv (st : CrawlState) : Prop :=
  st.queue.Nodup ∧ ∀ u ∈ st.queue, u ∉ st.visited

/-- The spec's domain policy (§4.1), stated in its own words for
comparison with the source's `is_valid_url`: the host is exactly the
target domain `mohfw.gov.in` or a subdomain of it. -/
def spec_domain_ok (host : String) : Bool :=
  host == "mohfw.gov.in" || str_ends_with host ".mohfw.gov.in"

/-- C2 (counterexample): in the spec's end-to-end scenario the crawl
loop increments `pages_visited` for every dequeued URL, the two PDF
URLs included, so the counter ends at 3, not 1 as the claim states. -/
theorem scenario_pages_visited_three_not_one :
    scenario_final.pages_visited = 3 ∧ ¬(scenario_final.pages_visited = 1) := by
  constructor
  · decide
  · decide

/-- C2 (amended): in the end-to-end scenario the crawl runs to queue
exhaustion, exactly one PDF file (`report.pdf`) and one sidecar record
exist, `pdfs_downloaded = 1`, the off-domain link is never enqueued —
but `pages_visited = 3`, because the loop counts every dequeued URL,
PDF resources included, not only HTML pages. -/
theorem end_to_end_scenario :
    scenario_final.queue = [] ∧
    scenario_final.files.map Prod.fst = ["report.pdf"] ∧
    scenario_final.sidecars.map Metadata.file_name = ["report.pdf"] ∧
    scenario_final.sidecars.length = 1 ∧
    scenario_final.pdfs_downloaded = 1 ∧
    scenario_final.pages_visited = 3 ∧
    scenario_final.ever_enqueued.contains "https://evil.example.com/page" = false ∧
    "https://evil.example.com/page" ∉ scenario_final.visited := by
  refine ⟨by decide, by decide, by decide, by decide, by decide, by decide, by decide, by decide⟩

/-- C3 (counterexample): `is_valid_url` checks `netloc.endswith("mohfw.gov.in")`
without an anchoring dot, so the look-alike host `evilmohfw.gov.in` —
neither the target domain nor a subdomain of it — is accepted. -/
theorem domain_filter_accepts_lookalike_host :
    is_valid_url [] "https://evilmohfw.gov.in/x.pdf" = true ∧
    netloc "https://evilmohfw.gov.in/x.pdf" = "evilmohfw.gov.in" ∧
    spec_domain_ok "evilmohfw.gov.in" = false := by
  refine ⟨by decide, by decide, by decide⟩

/-- C3 (amended): every unvisited URL whose host is the target domain or
a subdomain of it is accepted, `https://evil.example.com/a.pdf` is
rejected and `https://mohfw.gov.in/docs/a.pdf` accepted — but acceptance
only guarantees that the host ends in the string `mohfw.gov.in`, which
also admits look-alike hosts such as `evilmohfw.gov.in`. -/
theorem domain_filter_amended (url : String) (visited : List String)
    (hd : spec_domain_ok (netloc url) = true)
    (hv : visited.contains url = false) :
    is_valid_url visited url = true ∧
    (∀ u : String, ∀ vs : List String, is_valid_url vs u = true →
      str_ends_with (netloc u) "mohfw.gov.in" = true) ∧
    is_valid_url [] "https://mohfw.gov.in/docs/a.pdf" = true ∧
    is_valid_url [] "https://evil.example.com/a.pdf" = false := by
  refine ⟨?_, ?_, by decide, by decide⟩
  · unfold is_valid_url
    rw [hv]
    simp only [Bool.not_false, Bool.and_true]
    simp only [spec_domain_ok, Bool.or_eq_true, beq_iff_eq] at hd
    rcases hd with h | h
    · rw [h]; decide
    · unfold str_ends_with at h ⊢
      have hsuf : (".mohfw.gov.in".data) <:+ (netloc url).data := of_decide_eq_true h
      exact decide_eq_true
        ((by decide : ("mohfw.gov.in".data) <:+ (".mohfw.gov.in".data)).trans hsuf)
  · intro u vs h
    unfold is_valid_url at h
    exact (Bool.and_eq_true _ _).mp h |>.1

/-- C3 (witness): a subdomain URL not yet visited is accepted. -/
theorem domain_filter_amended_witness :
    is_valid_url ["https://mohfw.gov.in/seen"] "https://abc.mohfw.gov.in/doc.pdf" = true :=
  (domain_filter_amended "https://abc.mohfw.gov.in/doc.pdf" ["https://mohfw.gov.in/seen"]
    (by decide) (by decide)).1

/-- C4 (counterexample): a response whose declared content type is
`text/html` at a URL ending in `.pdf` is classified as a PDF, not as
HTML — the URL-suffix check is an `or`, not a fallback used only when
the header is absent or generic. -/
theorem classification_suffix_overrides_html_header :
    classify "https://mohfw.gov.in/a.pdf" "text/html" = Classification.pdf ∧
    classify "https://mohfw.gov.in/a.pdf" "text/html" ≠ Classification.html := by
  refine ⟨by decide, by decide⟩

/-- C4 (amended): a successful response is classified as PDF iff the
lowered header contains `application/pdf` or the lowered URL ends in
`.pdf` (the suffix check applies unconditionally, an HTML header
notwithstanding); it is classified as HTML iff neither PDF condition
holds and the lowered header contains `text/html`; the suffix fallback
does work when the header is absent. -/
theorem classification_amended (url content_type : String) :
    (classify url content_type = Classification.pdf ↔
      (contains_substr (str_lower content_type) "application/pdf" = true ∨
        str_ends_with (str_lower url) ".pdf" = true)) ∧
    (classify url content_type = Classification.html ↔
      (contains_substr (str_lower content_type) "application/pdf" = false ∧
        str_ends_with (str_lower url) ".pdf" = false ∧
        contains_substr (str_lower content_type) "text/html" = true)) ∧
    classify "https://mohfw.gov.in/b.pdf" "" = Classification.pdf ∧
    classify "https://mohfw.gov.in/page" "Text/HTML; charset=utf-8" = Classification.html := by
  refine ⟨?_, ?_, by decide, by decide⟩ <;>
  · cases hA : contains_substr (str_lower content_type) "application/pdf" <;>
      cases hS : str_ends_with (str_lower url) ".pdf" <;>
        cases hH : contains_substr (str_lower content_type) "text/html" <;>
          simp [classify, hA, hS, hH]

/-- All-failure run of the retry loop: `fuel` failing attempts consume
all the fuel, sleeping 2 time units after each failure. -/
theorem get_response_aux_all_fail (oracle : Nat → Option Response) (fuel : Nat) :
    ∀ (attempts : Nat) (sleeps : List Nat),
      (∀ i, i < fuel → oracle (attempts + i) = none) →
      get_response_aux oracle fuel attempts sleeps =
        (none, attempts + fuel, sleeps.reverse ++ List.replicate fuel 2) := by
  induction fuel with
  | zero => intro a s _; simp [get_response_aux]
  | succ f ih =>
    intro a s h
    have h0 : oracle a = none := by simpa using h 0 (Nat.succ_pos f)
    have hrest : ∀ i, i < f → oracle (a + 1 + i) = none := by
      intro i hi
      rw [show a + 1 + i = a + (i + 1) by omega]
      exact h (i + 1) (by omega)
    simp only [get_response_aux, h0]
    rw [ih (a + 1) (2 :: s) hrest]
    simp only [Prod.mk.injEq, List.reverse_cons, List.replicate_succ,
      List.append_assoc, List.singleton_append, true_and]
    exact ⟨by omega, trivial⟩

/-- C6: a fetch whose first three attempts all fail at the transport
level performs exactly 3 attempts with a 2-time-unit backoff sleep
after each, returns the failure result `none`, and never performs a
fourth attempt (any oracle agreeing on attempts 0, 1, 2 produces the
same trace). -/
theorem retry_bound (oracle : Nat → Option Response)
    (h0 : oracle 0 = none) (h1 : oracle 1 = none) (h2 : oracle 2 = none) :
    get_response oracle = (none, 3, [2, 2, 2]) ∧
    ∀ o2 : Nat → Option Response, (∀ i, i < 3 → o2 i = oracle i) →
      get_response o2 = (none, 3, [2, 2, 2]) := by
  have key : ∀ o : Nat → Option Response, (∀ i, i < 3 → o i = none) →
      get_response o = (none, 3, [2, 2, 2]) := by
    intro o h
    unfold get_response max_retries
    rw [get_response_aux_all_fail o 3 0 [] (fun i hi => by simpa using h i hi)]
    rfl
  have hall : ∀ i, i < 3 → oracle i = none := by
    intro i hi
    match i, hi with
    | 0, _ => exact h0
    | 1, _ => exact h1
    | 2, _ => exact h2
  exact ⟨key oracle hall, fun o2 hagree =>
    key o2 (fun i hi => (hagree i hi).trans (hall i hi))⟩

/-- C6 (witness): the always-failing oracle. -/
theorem retry_bound_witness :
    get_response (fun _ => none) = (none, 3, [2, 2, 2]) :=
  (retry_bound (fun _ => none) rfl rfl rfl).1

/-- C7: a PDF whose declared content length is below the 50 KiB
threshold is skipped with no side effect, and one at or above the
threshold is archived (file written, counters bumped, sidecar created);
in particular declared length 20000 is rejected and 60000 archived. -/
theorem size_filter (url : String) (r : Response) (now : Nat) (today : String)
    (st : CrawlState) (n : Nat)
    (hn : parse_content_length r.content_length = some n) :
    (n < pdf_min_size → save_pdf url r now today none st = st) ∧
    (pdf_min_size ≤ n → save_pdf url r now today none st =
      { st with
        files := st.files ++ [(derive_filename url now, r.chunks.sum)]
        pdfs_downloaded := st.pdfs_downloaded + 1
        total_size_bytes := st.total_size_bytes + n
        sidecars := st.sidecars ++
          [{ source_authority := "MoHFW"
             tier := "Tier1"
             download_url := url
             file_name := derive_filename url now
             crawl_date := today
             file_size_kb := (n : Rat) / 1024 }] }) ∧
    (∀ r2 : Response, r2.content_length = some "20000" →
      save_pdf url r2 now today none st = st) ∧
    (∀ r2 : Response, r2.content_length = some "60000" →
      (save_pdf url r2 now today none st).pdfs_downloaded = st.pdfs_downloaded + 1) := by
  refine ⟨?_, ?_, ?_, ?_⟩
  · intro hlt
    simp [save_pdf, hn, hlt]
  · intro hge
    have hlt : ¬(n < pdf_min_size) := by omega
    simp [save_pdf, hn, hlt]
  · intro r2 h2
    have hp : parse_content_length (some "20000") = some 20000 := by decide
    simp [save_pdf, h2, hp, show (20000 : Nat) < pdf_min_size by decide]
  · intro r2 h2
    have hp : parse_content_length (some "60000") = some 60000 := by decide
    simp [save_pdf, h2, hp, show ¬((60000 : Nat) < pdf_min_size) by decide]

/-- C7 (witness): a 20000-byte PDF is skipped. -/
theorem size_filter_witness :
    save_pdf "https://mohfw.gov.in/t.pdf"
      { content_type := some "application/pdf", content_length := some "20000",
        links := [], chunks := [] } 0 "" none init_state = init_state :=
  (size_filter "https://mohfw.gov.in/t.pdf"
    { content_type := some "application/pdf", content_length := some "20000",
      links := [], chunks := [] } 0 "" init_state 20000 (by decide)).1 (by decide)

/-- C10: a PDF response with no `content-length` header is treated as
declaring length 0 and is always skipped by the minimum-size filter;
and the counters and the sidecar are computed from the declared header
value — changing the actually streamed bytes changes neither the
counters nor the sidecar. -/
theorem declared_length_governs (url : String) (r : Response) (now : Nat)
    (today : String) (st : CrawlState) :
    (r.content_length = none →
      parse_content_length r.content_length = some 0 ∧
      save_pdf url r now today none st = st) ∧
    (∀ chunks2 : List Nat,
      (save_pdf url { r with chunks := chunks2 } now today none st).pdfs_downloaded =
        (save_pdf url r now today none st).pdfs_downloaded ∧
      (save_pdf url { r with chunks := chunks2 } now today none st).total_size_bytes =
        (save_pdf url r now today none st).total_size_bytes ∧
      (save_pdf url { r with chunks := chunks2 } now today none st).sidecars =
        (save_pdf url r now today none st).sidecars) := by
  constructor
  · intro h
    refine ⟨by rw [h]; rfl, ?_⟩
    simp [save_pdf, h, parse_content_length, pdf_min_size]
  · intro chunks2
    cases hp : parse_content_length r.content_length with
    | none => simp [save_pdf, hp]
    | some n =>
      by_cases hlt : n < pdf_min_size <;> simp [save_pdf, hp, hlt]

/-- C10 (witness): a headerless PDF response leaves the state
unchanged. -/
theorem declared_length_governs_witness :
    parse_content_length none = some 0 ∧
    save_pdf "https://mohfw.gov.in/h.pdf"
      { content_type := some "application/pdf", content_length := none,
        links := [], chunks := [9999] } 0 "" none init_state = init_state :=
  (declared_length_governs "https://mohfw.gov.in/h.pdf"
    { content_type := some "application/pdf", content_length := none,
      links := [], chunks := [9999] } 0 "" init_state).1 rfl

/-- C5 (counterexample): when the sidecar write fails after a 100000
byte PDF's bytes are written, the counters have already been
incremented and the PDF file exists without its sidecar — the state is
not as if the document had been skipped. -/
theorem sidecar_write_failure_still_counts :
    (save_pdf "https://mohfw.gov.in/r.pdf"
        { content_type := some "application/pdf", content_length := some "100000",
          links := [], chunks := [4096] }
        0 "2026-10-12" (some WritePoint.sidecarWrite) init_state).pdfs_downloaded = 1 ∧
    init_state.pdfs_downloaded = 0 ∧
    (save_pdf "https://mohfw.gov.in/r.pdf"
        { content_type := some "application/pdf", content_length := some "100000",
          links := [], chunks := [4096] }
        0 "2026-10-12" (some WritePoint.sidecarWrite) init_state).total_size_bytes = 100000 ∧
    (save_pdf "https://mohfw.gov.in/r.pdf"
        { content_type := some "application/pdf", content_length := some "100000",
          links := [], chunks := [4096] }
        0 "2026-10-12" (some WritePoint.sidecarWrite) init_state).files.length = 1 ∧
    (save_pdf "https://mohfw.gov.in/r.pdf"
        { content_type := some "application/pdf", content_length := some "100000",
          links := [], chunks := [4096] }
        0 "2026-10-12" (some WritePoint.sidecarWrite) init_state).sidecars = [] := by
  refine ⟨by decide, by decide, by decide, by decide, by decide⟩

/-- C5 (amended): every I/O failure during the archive step is caught
and the crawl survives it (`save_pdf` always returns a state; queue and
visited set are untouched).  A failure after `k` chunks of the PDF
write leaves the counters and the sidecar list as if the document had
been skipped, though a partial file holding the `k` chunks written
before the exception remains on disk; a failure during the sidecar
write happens after the counter updates, so `pdfs_downloaded` and
`total_size_bytes` are already incremented and the full PDF file is on
disk without a sidecar. -/
theorem archive_failure_isolation (url : String) (r : Response) (now : Nat)
    (today : String) (st : CrawlState) (n k : Nat)
    (hn : parse_content_length r.content_length = some n)
    (hge : pdf_min_size ≤ n) :
    ((save_pdf url r now today (some (WritePoint.pdfWrite k)) st).pdfs_downloaded =
        st.pdfs_downloaded ∧
      (save_pdf url r now today (some (WritePoint.pdfWrite k)) st).total_size_bytes =
        st.total_size_bytes ∧
      (save_pdf url r now today (some (WritePoint.pdfWrite k)) st).sidecars =
        st.sidecars ∧
      (save_pdf url r now today (some (WritePoint.pdfWrite k)) st).files =
        st.files ++ [(derive_filename url now, (r.chunks.take k).sum)] ∧
      (save_pdf url r now today (some (WritePoint.pdfWrite k)) st).queue = st.queue ∧
      (save_pdf url r now today (some (WritePoint.pdfWrite k)) st).visited =
        st.visited) ∧
    ((save_pdf url r now today (some WritePoint.sidecarWrite) st).pdfs_downloaded =
        st.pdfs_downloaded + 1 ∧
      (save_pdf url r now today (some WritePoint.sidecarWrite) st).total_size_bytes =
        st.total_size_bytes + n ∧
      (save_pdf url r now today (some WritePoint.sidecarWrite) st).sidecars =
        st.sidecars ∧
      (save_pdf url r now today (some WritePoint.sidecarWrite) st).files =
        st.files ++ [(derive_filename url now, r.chunks.sum)] ∧
      (save_pdf url r now today (some WritePoint.sidecarWrite) st).queue = st.queue ∧
      (save_pdf url r now today (some WritePoint.sidecarWrite) st).visited =
        st.visited) := by
  have hlt : ¬(n < pdf_min_size) := by omega
  refine ⟨?_, ?_⟩ <;> simp [save_pdf, hn, hlt]

/-- C5 (witness): a PDF-write failure after one 8192-byte chunk of an
accepted document leaves the counters untouched but a one-chunk partial
file on disk. -/
theorem archive_failure_isolation_witness :
    (save_pdf "https://mohfw.gov.in/q.pdf"
        { content_type := some "application/pdf", content_length := some "60000",
          links := [], chunks := [8192, 8192] } 0 ""
        (some (WritePoint.pdfWrite 1)) init_state).pdfs_downloaded =
      init_state.pdfs_downloaded :=
  (archive_failure_isolation "https://mohfw.gov.in/q.pdf"
    { content_type := some "application/pdf", content_length := some "60000",
      links := [], chunks := [8192, 8192] } 0 "" init_state 60000 1
    (by decide) (by decide)).1.1

/-- A character whose lowering is one of `.`, `p`, `d`, `f` passes the
filename character filter. -/
theorem allowed_of_lower_pdfchar (c : Char)
    (h : char_lower c = '.' ∨ char_lower c = 'p' ∨ char_lower c = 'd' ∨
      char_lower c = 'f') :
    allowed_char c = true := by
  by_cases hu : c.isUpper = true
  · simp [allowed_char, Char.isAlphanum, Char.isAlpha, hu]
  · unfold char_lower at h
    simp only [hu, if_false] at h
    rcases h with h | h | h | h <;> subst h <;> decide

/-- After `pdf_suffixed`, the lowered name ends in `.pdf`. -/
theorem pdf_suffixed_lower_suffix (s : String) :
    (".pdf".data) <:+ (str_lower (pdf_suffixed s)).data := by
  unfold pdf_suffixed
  by_cases hend : str_ends_with (str_lower s) ".pdf" = true
  · simp only [hend, Bool.not_true, Bool.false_eq_true, if_false]
    exact of_decide_eq_true hend
  · rw [Bool.not_eq_true] at hend
    simp only [hend, Bool.not_false, if_true]
    unfold str_lower
    simp only [String.data_append, List.map_append]
    rw [show (".pdf".data).map char_lower = ".pdf".data from by decide]
    exact List.suffix_append _ _

/-- The character filter of the filename cleaning step preserves a
lowered `.pdf` suffix: every character lowering into the suffix passes
the filter, so the suffix survives filtering. -/
theorem clean_keeps_pdf_suffix (t : String)
    (h : (".pdf".data) <:+ (str_lower t).data) :
    (".pdf".data) <:+ (str_lower (clean_filename t)).data := by
  obtain ⟨pre, hpre⟩ := h
  have hmap : t.data.map char_lower = pre ++ ".pdf".data := by
    simpa [str_lower] using hpre.symm
  obtain ⟨l₁, l₂, hsplit, hmap1, hmap2⟩ := List.map_eq_append_iff.mp hmap
  have hall : ∀ x ∈ l₂, allowed_char x = true := by
    intro x hx
    apply allowed_of_lower_pdfchar
    have hx2 : char_lower x ∈ List.map char_lower l₂ := List.mem_map_of_mem _ hx
    rw [hmap2] at hx2
    rw [show (".pdf".data) = ['.', 'p', 'd', 'f'] from rfl] at hx2
    simpa using hx2
  have hfilter : l₂.filter allowed_char = l₂ := List.filter_eq_self.mpr hall
  show (".pdf".data) <:+ ((t.data.filter allowed_char).map char_lower)
  rw [hsplit, List.filter_append, hfilter, List.map_append, hmap2]
  exact List.suffix_append _ _

/-- C8: every derived PDF file name consists only of characters the
filter allows (alphanumerics, space, dot, underscore, hyphen), contains
no path separator, and ends in `.pdf` (case-insensitively); the
traversal path `/../../etc/passwd.pdf` yields the bare name
`passwd.pdf`. -/
theorem filename_sanitation (url : String) (now : Nat) :
    (∀ c ∈ (derive_filename url now).data, allowed_char c = true) ∧
    ('/' ∉ (derive_filename url now).data) ∧
    str_ends_with (str_lower (derive_filename url now)) ".pdf" = true ∧
    derive_filename "https://mohfw.gov.in/../../etc/passwd.pdf" 0 = "passwd.pdf" := by
  refine ⟨?_, ?_, ?_, by decide⟩
  · intro c hc
    have hc2 : c ∈ (pdf_suffixed (raw_filename url now)).data.filter allowed_char := hc
    exact (List.mem_filter.mp hc2).2
  · intro hmem
    have hc2 : '/' ∈ (pdf_suffixed (raw_filename url now)).data.filter allowed_char := hmem
    exact absurd (List.mem_filter.mp hc2).2 (by decide)
  · exact decide_eq_true
      (clean_keeps_pdf_suffix _ (pdf_suffixed_lower_suffix (raw_filename url now)))

/-- C8 (witness): the traversal URL's derived name is the sanitized
`passwd.pdf`, and its first character passes the filter. -/
theorem filename_sanitation_witness :
    allowed_char 'p' = true ∧
    derive_filename "https://mohfw.gov.in/../../etc/passwd.pdf" 0 = "passwd.pdf" :=
  ⟨(filename_sanitation "https://mohfw.gov.in/../../etc/passwd.pdf" 0).1 'p' (by decide),
    (filename_sanitation "https://mohfw.gov.in/../../etc/passwd.pdf" 0).2.2.2⟩

/-- Enqueueing a URL already present in the live queue is a no-op. -/
theorem enqueue_link_of_mem_queue (st : CrawlState) (u : String)
    (h : u ∈ st.queue) : enqueue_link st u = st := by
  unfold enqueue_link
  have hc : st.queue.contains u = true := by
    show st.queue.elem u = true
    simp [h]
  by_cases hv : is_valid_url st.visited u = true
  · rw [hc]
    simp [hv]
  · rw [Bool.not_eq_true] at hv
    simp [hv]

/-- Enqueueing a URL already in the visited set is a no-op. -/
theorem enqueue_link_of_mem_visited (st : CrawlState) (u : String)
    (h : u ∈ st.visited) : enqueue_link st u = st := by
  unfold enqueue_link is_valid_url
  have hc : st.visited.contains u = true := by
    show st.visited.elem u = true
    simp [h]
  rw [hc]
  simp

/-- Case analysis of `enqueue_link`: either the state is unchanged, or a
URL in neither the queue nor the visited set is appended at the tail. -/
theorem enqueue_link_spec (st : CrawlState) (u : String) :
    enqueue_link st u = st ∨
    (enqueue_link st u =
        { st with
          queue := st.queue ++ [u]
          ever_enqueued := st.ever_enqueued ++ [u] } ∧
      u ∉ st.queue ∧ u ∉ st.visited) := by
  by_cases hq : u ∈ st.queue
  · exact Or.inl (enqueue_link_of_mem_queue st u hq)
  by_cases hvis : u ∈ st.visited
  · exact Or.inl (enqueue_link_of_mem_visited st u hvis)
  by_cases hv : is_valid_url st.visited u = true
  · right
    have h1 : st.visited.contains u = false := by
      show st.visited.elem u = false
      simp [hvis]
    have h2 : st.queue.contains u = false := by
      show st.queue.elem u = false
      simp [hq]
    refine ⟨?_, hq, hvis⟩
    unfold enqueue_link
    simp only [hv, if_true]
    rw [h1, h2]
    simp
  · left
    rw [Bool.not_eq_true] at hv
    unfold enqueue_link
    simp [hv]

/-- `enqueue_link` preserves the frontier invariant. -/
theorem enqueue_link_inv (st : CrawlState) (u : String) (h : Inv st) :
    Inv (enqueue_link st u) := by
  rcases enqueue_link_spec st u with he | ⟨he, hq, hvis⟩
  · rw [he]; exact h
  · rw [he]
    obtain ⟨hnd, hdisj⟩ := h
    constructor
    · refine List.nodup_append.mpr ⟨hnd, List.nodup_singleton u, fun x hx hx2 => ?_⟩
      rw [List.mem_singleton] at hx2
      subst hx2
      exact hq hx
    · intro v hv2
      rw [List.mem_append] at hv2
      rcases hv2 with h1 | h1
      · exact hdisj v h1
      · rw [List.mem_singleton] at h1
        subst h1
        exact hvis

/-- Enqueueing the same URL twice is the same as enqueueing it once. -/
theorem enqueue_link_idempotent (st : CrawlState) (u : String) :
    enqueue_link (enqueue_link st u) u = enqueue_link st u := by
  rcases enqueue_link_spec st u with he | ⟨he, hq, hvis⟩
  · rw [he]
    exact he
  · rw [he]
    exact enqueue_link_of_mem_queue _ u (by simp)

/-- C9: fragment stripping maps `u#f` and `u` to the same frontier
entry — for any fragment-free `u`, both normalize to `u` itself, and
enqueueing both is the same as enqueueing the entry once (the second
enqueue is a no-op); concretely `https://mohfw.gov.in/a#sec2`
normalizes to `https://mohfw.gov.in/a`. -/
theorem fragment_normalization (st : CrawlState) (u f : String)
    (h : '#' ∉ u.data) :
    strip_fragment (u ++ "#" ++ f) = u ∧
    strip_fragment u = u ∧
    enqueue_link (enqueue_link st (strip_fragment (u ++ "#" ++ f)))
        (strip_fragment u) = enqueue_link st u ∧
    strip_fragment "https://mohfw.gov.in/a#sec2" = "https://mohfw.gov.in/a" := by
  have hall : ∀ c ∈ u.data, (!(c == '#')) = true := by
    intro c hc
    simp only [Bool.not_eq_true', beq_eq_false_iff_ne]
    intro heq
    subst heq
    exact h hc
  have h2 : strip_fragment u = u := by
    unfold strip_fragment
    exact String.ext (by simpa using List.takeWhile_eq_self_iff.mpr hall)
  have h1 : strip_fragment (u ++ "#" ++ f) = u := by
    unfold strip_fragment
    apply String.ext
    show ((u ++ "#" ++ f).data.takeWhile (fun c => !(c == '#'))) = u.data
    rw [String.data_append, String.data_append,
      List.append_assoc, List.takeWhile_append_of_pos hall]
    simp
  refine ⟨h1, h2, ?_, by decide⟩
  rw [h1, h2]
  exact enqueue_link_idempotent st u

/-- C9 (witness): both spellings of the concrete URL collapse to one
frontier entry. -/
theorem fragment_normalization_witness :
    strip_fragment "https://mohfw.gov.in/a#sec2" = "https://mohfw.gov.in/a" ∧
    enqueue_link (enqueue_link init_state (strip_fragment "https://mohfw.gov.in/a#sec2"))
        (strip_fragment "https://mohfw.gov.in/a") =
      enqueue_link init_state "https://mohfw.gov.in/a" :=
  ⟨(fragment_normalization init_state "https://mohfw.gov.in/a" "sec2" (by decide)).1,
    (fragment_normalization init_state "https://mohfw.gov.in/a" "sec2" (by decide)).2.2.1⟩

/-- `save_pdf` never touches the queue or the visited set. -/
theorem save_pdf_frontier (url : String) (r : Response) (now : Nat)
    (today : String) (fail : Option WritePoint) (st : CrawlState) :
    (save_pdf url r now today fail st).queue = st.queue ∧
    (save_pdf url r now today fail st).visited = st.visited := by
  unfold save_pdf
  cases hp : parse_content_length r.content_length with
  | none => exact ⟨rfl, rfl⟩
  | some n =>
    by_cases h1 : n < pdf_min_size
    · simp [h1]
    · cases fail with
      | none => simp [h1]
      | some wp => cases wp <;> simp [h1]

/-- Folding `enqueue_link` over any link list preserves the frontier
invariant. -/
theorem foldl_enqueue_inv (links : List String) (g : String → String) :
    ∀ st : CrawlState, Inv st →
      Inv (links.foldl (fun acc href => enqueue_link acc (g href)) st) := by
  induction links with
  | nil => intro st h; exact h
  | cons a as ih => intro st h; exact ih _ (enqueue_link_inv _ _ h)

/-- Processing one URL preserves the frontier invariant. -/
theorem process_url_inv (w : World) (url : String) (st : CrawlState)
    (h : Inv st) : Inv (process_url w url st) := by
  unfold process_url
  cases w.fetch url with
  | none => exact h
  | some r =>
    dsimp only
    cases classify url ((r.content_type).getD "") with
    | pdf =>
      have hs := save_pdf_frontier url r w.now w.today (w.fail_at url) st
      unfold Inv
      rw [hs.1, hs.2]
      exact h
    | html => exact foldl_enqueue_inv r.links _ st h
    | other => exact h

/-- Every iteration of the crawl loop preserves the frontier
invariant. -/
theorem crawl_loop_inv (w : World) (fuel : Nat) :
    ∀ st : CrawlState, Inv st → Inv (crawl_loop w fuel st) := by
  induction fuel with
  | zero => intro st h; exact h
  | succ f ih =>
    intro st h
    unfold crawl_loop
    cases hq : st.queue with
    | nil => exact h
    | cons url rest =>
      dsimp only
      obtain ⟨hnd, hdisj⟩ := h
      rw [hq] at hnd hdisj
      by_cases hv : st.visited.contains url = true
      · rw [if_pos hv]
        exact ih _ ⟨(List.nodup_cons.mp hnd).2,
          fun u hu => hdisj u (List.mem_cons_of_mem _ hu)⟩
      · rw [if_neg hv]
        refine ih _ (process_url_inv _ _ _ ?_)
        refine ⟨(List.nodup_cons.mp hnd).2, ?_⟩
        intro u hu hmem
        rcases List.mem_cons.mp hmem with he | he
        · exact (List.nodup_cons.mp hnd).1 (he ▸ hu)
        · exact hdisj u (List.mem_cons_of_mem _ hu) he

/-- C1: the frontier invariant — no duplicate URLs in the queue and
`queue ∩ visited = ∅` — holds initially and at every point of the crawl
loop; a URL already visited is never enqueued, a double enqueue equals a
single one, and after enqueueing a URL twice the queue holds at most
one copy of it, so dequeuing can never yield it twice. -/
theorem frontier_invariant (w : World) (fuel : Nat) (st : CrawlState)
    (u : String) (h : Inv st) :
    Inv init_state ∧
    Inv (crawl_loop w fuel st) ∧
    (u ∈ st.visited → enqueue_link st u = st) ∧
    enqueue_link (enqueue_link st u) u = enqueue_link st u ∧
    (enqueue_link (enqueue_link st u) u).queue.count u ≤ 1 := by
  refine ⟨⟨List.nodup_singleton _, by simp [init_state]⟩,
    crawl_loop_inv w fuel st h,
    enqueue_link_of_mem_visited st u,
    enqueue_link_idempotent st u, ?_⟩
  have h2 : Inv (enqueue_link (enqueue_link st u) u) :=
    enqueue_link_inv _ u (enqueue_link_inv _ u h)
  exact List.nodup_iff_count_le_one.mp h2.1 u

/-- C1 (witness): the invariant holds for the initial state and after
running the loop on a world that never answers. -/
theorem frontier_invariant_witness :
    Inv init_state ∧ Inv (crawl_loop trivial_world 2 init_state) :=
  ⟨(frontier_invariant trivial_world 2 init_state "u"
      ⟨by decide, by decide⟩).1,
    (frontier_invariant trivial_world 2 init_state "u"
      ⟨by decide, by decide⟩).2.1⟩

end MoHFW
